import Mathlib

/-!
# Song catalogue handlers: enrichment on creation and verse selection

A shallow embedding of `internal/handlers/song.go`:

* `fetchSongDetails`, `AddSongHandler` (insert the base row, ask the provider,
  update the row on success, always answer 201 once the insert succeeded);
* `GetSongHandler` (point lookup, optional `verse` query parameter that selects
  one segment of the text split at `"\n\n"`);
* `ListSongsHandler` (filters and the `LIMIT`/`OFFSET` computed from `page` and
  `limit` in 64-bit `int` arithmetic).

Go strings are byte sequences, so a string is a `List UInt8`.  The standard
library calls the handlers make (`strconv.Atoi`, `strings.Split` with its helpers
`Index`, `Count`, `genSplit`) are transcribed from the Go standard library.
The database and the HTTP provider are the environment: every call to them is
an explicit argument whose reply the handler cannot influence.
-/

namespace SongLib

/-! ## Strings -/

/-- A Go `string`: an immutable sequence of bytes. -/
abbrev Str := List UInt8

/-- The bytes (UTF-8) of a string literal of the source. -/
def ofString (s : String) : Str := s.toUTF8.data.toList

/-- The separator literal `"\n\n"` passed to `strings.Split` by `GetSongHandler`. -/
def verseSep : Str := [10, 10]

/-- `strings.Index(s, substr)`: the index of the first instance of `substr` in
`s`; `none` stands for the result `-1`. -/
def Index : Str → Str → Option Nat
  | [], substr => if substr.isPrefixOf [] then some 0 else none
  | c :: cs, substr =>
    if substr.isPrefixOf (c :: cs) then some 0 else (Index cs substr).map (· + 1)

/-- The loop of `strings.Count` (`for { i := Index(s, substr); if i == -1 { return n };
n++; s = s[i+len(substr):] }`), bounded by `fuel` iterations. -/
def countLoop : Nat → Str → Str → Nat → Nat
  | 0, _, _, n => n
  | fuel + 1, s, substr, n =>
    match Index s substr with
    | none => n
    | some i => countLoop fuel (s.drop (i + substr.length)) substr (n + 1)

/-- `strings.Count(s, substr)`: the number of non-overlapping instances of
`substr` in `s`, by the general loop (the shortcuts for a `substr` of length 0
or 1 are not reached with `"\n\n"`).  Every iteration of the loop removes at
least one byte of `s`, so `len(s) + 1` iterations are enough
(`countLoop_verseSep` below: any larger bound gives the same number). -/
def Count (s substr : Str) : Nat := countLoop (s.length + 1) s substr 0

/-- The loop of `strings.genSplit`, `k = n - 1 - i` iterations left:
`for i < n { m := Index(s, sep); if m < 0 { break }; a[i] = s[:m+sepSave];
s = s[m+len(sep):]; i++ }; a[i] = s; return a[:i+1]`. -/
def genSplitLoop : Nat → Str → Str → Nat → List Str
  | 0, s, _, _ => [s]
  | k + 1, s, sep, sepSave =>
    match Index s sep with
    | none => [s]
    | some m => s.take (m + sepSave) :: genSplitLoop k (s.drop (m + sep.length)) sep sepSave

/-- `strings.genSplit(s, sep, sepSave, n)` for a non-empty `sep` (the branch
`sep == ""`, which explodes `s` into UTF-8 sequences, is not reached from the
handlers, which pass the constant `"\n\n"`). -/
def genSplit (s sep : Str) (sepSave : Nat) (n : Int) : List Str :=
  if n = 0 then []
  else
    let n₁ : Nat := if n < 0 then Count s sep + 1 else n.toNat
    let n₂ : Nat := if n₁ > s.length + 1 then s.length + 1 else n₁
    genSplitLoop (n₂ - 1) s sep sepSave

/-- `strings.Split(s, sep) = genSplit(s, sep, 0, -1)`. -/
def Split (s sep : Str) : List Str := genSplit s sep 0 (-1)

/-- The decimal value of a run of ASCII digits, continuing from `n`; `none` when a
byte is not a digit (`ch -= '0'; if ch > 9 { return 0, syntaxError }`). -/
def digitsValue : Str → Nat → Option Nat
  | [], n => some n
  | ch :: rest, n =>
    if 48 ≤ ch ∧ ch ≤ 57 then digitsValue rest (n * 10 + (ch.toNat - 48)) else none

/-- `strconv.Atoi(s)` on a 64-bit platform: an optional sign followed by one or
more decimal digits whose value fits a signed 64-bit `int`; `none` stands for a
non-nil error (syntax or range). -/
def Atoi (s : Str) : Option Int :=
  match s with
  | [] => none
  | c :: rest =>
    let body := if c = 45 ∨ c = 43 then rest else s
    if body = [] then none
    else
      match digitsValue body 0 with
      | none => none
      | some n =>
        if c = 45 then (if n ≤ 2 ^ 63 then some (-(n : Int)) else none)
        else (if n < 2 ^ 63 then some (n : Int) else none)

/-! ## Data model -/

/-- `Song`: the model written to the response by `GetSongHandler`. -/
structure Song where
  ID : Int
  GroupName : Str
  SongTitle : Str
  ReleaseDate : Str
  Text : Str
  Link : Str
  deriving DecidableEq

/-- `AddSongRequest`: the decoded body of `POST /songs`. -/
structure AddSongRequest where
  Group : Str
  Song : Str
  deriving DecidableEq

/-- `SongDetail`: the decoded reply of the external provider. -/
structure SongDetail where
  ReleaseDate : Str
  Text : Str
  Link : Str
  deriving DecidableEq

/-- What a handler writes: the text of `http.Error`, the encoded `Song`, or the
encoded map `{"id": id}`. -/
inductive Body where
  | message (msg : String)
  | song (s : Song)
  | created (id : Int)
  deriving DecidableEq

/-- An HTTP response: status code and body. -/
structure Response where
  status : Nat
  body : Body
  deriving DecidableEq

/-- `http.StatusOK`. -/
def StatusOK : Nat := 200
/-- `http.StatusCreated`. -/
def StatusCreated : Nat := 201
/-- `http.StatusBadRequest`. -/
def StatusBadRequest : Nat := 400
/-- `http.StatusNotFound`. -/
def StatusNotFound : Nat := 404
/-- `http.StatusInternalServerError`. -/
def StatusInternalServerError : Nat := 500

/-! ## Environment: storage and provider -/

/-- Result of `QueryRow(SELECT id, group_name, song_title, text, link ...).Scan`:
`sql.ErrNoRows`, another error, or the scanned columns (`text` and `link` are
scanned into `*string`, `none` for NULL). -/
inductive ScanResult where
  | noRows
  | failure
  | row (id : Int) (group_name song_title : Str) (text link : Option Str)
  deriving DecidableEq

/-- The three statements the two handlers send to `h.DB`, over a storage state `σ`.
* `insertSong db group title`: `INSERT INTO songs (group_name, song_title) VALUES
  ($1, $2) RETURNING id` scanned into `id`; `none` is an error.
* `updateDetails db releaseDate text link id`: `UPDATE songs SET release_date = $1,
  text = $2, link = $3 WHERE id = $4`; `false` is an error.
* `selectSong db id`: the point lookup of `GetSongHandler`. -/
structure Storage (σ : Type) where
  insertSong : σ → Str → Str → σ × Option Int
  updateDetails : σ → Str → Str → Str → Int → σ × Bool
  selectSong : σ → Int → ScanResult

/-- What the HTTP exchange of `fetchSongDetails` yields: `http.NewRequest` fails,
`client.Do` fails, or a response with a status code and the outcome of decoding
its body into a `SongDetail` (`none`: the decoder returned an error). -/
inductive Exchange where
  | requestError
  | transportError
  | response (status : Nat) (decoded : Option SongDetail)
  deriving DecidableEq

/-- The process environment of `fetchSongDetails`: the variable
`EXTERNAL_API_URL` and the provider reached at a URL with `group` and `song`. -/
structure Env where
  EXTERNAL_API_URL : Str
  exchange : Str → Str → Str → Exchange

/-- The errors `fetchSongDetails` builds with `fmt.Errorf`. -/
inductive FetchError where
  | newRequest
  | transport
  | badStatus (code : Nat)
  | decode
  | incomplete
  deriving DecidableEq

/-- Calls a handler makes to its environment, in order. -/
inductive Call where
  | insert (group title : Str)
  | provider (url group title : Str)
  | update (releaseDate text link : Str) (id : Int)
  deriving DecidableEq

/-- The lyric of the mock `SongDetail` (a raw string literal in the source). -/
def mockText : Str :=
  ofString "Ooh baby, don\x27t you know I suffer?\nOoh baby, can you hear me moan?\nYou caught me under false pretenses\nHow long before you let me go?\n\nOoh\nYou set my soul alight\nOoh\nYou set my soul alight"

/-- The mock data returned when `EXTERNAL_API_URL` is empty. -/
def mockDetail : SongDetail :=
  { ReleaseDate := ofString "2006-07-16"
    Text := mockText
    Link := ofString "https://www.youtube.com/watch?v=Xsp3_a-PMTw" }

/-- `fetchSongDetails(group, song)`: the result and the provider calls made. -/
def fetchSongDetails (env : Env) (group song : Str) :
    Except FetchError SongDetail × List Call :=
  if env.EXTERNAL_API_URL = [] then (.ok mockDetail, [])
  else
    match env.exchange env.EXTERNAL_API_URL group song with
    | .requestError => (.error .newRequest, [])
    | .transportError => (.error .transport, [.provider env.EXTERNAL_API_URL group song])
    | .response status decoded =>
      let calls := [Call.provider env.EXTERNAL_API_URL group song]
      if status ≠ StatusOK then (.error (.badStatus status), calls)
      else
        match decoded with
        | none => (.error .decode, calls)
        | some details =>
          if details.ReleaseDate = [] ∨ details.Text = [] ∨ details.Link = [] then
            (.error .incomplete, calls)
          else (.ok details, calls)

/-! ## Handlers -/

/-- What a run of `AddSongHandler` leaves: the response, the storage state and
the calls made to storage and provider. -/
structure Outcome (σ : Type) where
  resp : Response
  db : σ
  calls : List Call

/-- `AddSongHandler`; `body` is the outcome of decoding the request body
(`none`: `Decode` returned an error). -/
def AddSongHandler {σ : Type} (S : Storage σ) (env : Env) (db : σ)
    (body : Option AddSongRequest) : Outcome σ :=
  match body with
  | none => ⟨⟨StatusBadRequest, .message "Некорректные входные данные"⟩, db, []⟩
  | some input =>
    match S.insertSong db input.Group input.Song with
    | (db₁, none) =>
      ⟨⟨StatusInternalServerError, .message "Ошибка выполнения запроса"⟩, db₁,
        [.insert input.Group input.Song]⟩
    | (db₁, some id) =>
      match fetchSongDetails env input.Group input.Song with
      | (.error _, pcalls) =>
        ⟨⟨StatusCreated, .created id⟩, db₁, .insert input.Group input.Song :: pcalls⟩
      | (.ok details, pcalls) =>
        let (db₂, _) := S.updateDetails db₁ details.ReleaseDate details.Text details.Link id
        ⟨⟨StatusCreated, .created id⟩, db₂,
          .insert input.Group input.Song :: pcalls ++
            [.update details.ReleaseDate details.Text details.Link id]⟩

/-- The request of `GET /songs/:id`: the path parameter `id` and the `verse`
query value (`none` when the parameter is absent). -/
structure GetRequest where
  id : Str
  verse : Option Str

/-- `r.URL.Query().Get(key)`: the value, or the empty string when absent. -/
def queryGet (v : Option Str) : Str := v.getD []

/-- `GetSongHandler`. -/
def GetSongHandler {σ : Type} (S : Storage σ) (db : σ) (req : GetRequest) : Response :=
  match Atoi req.id with
  | none => ⟨StatusBadRequest, .message "Некорректный ID"⟩
  | some id =>
    match S.selectSong db id with
    | .noRows => ⟨StatusNotFound, .message "Песня не найдена"⟩
    | .failure => ⟨StatusInternalServerError, .message "Ошибка выполнения запроса"⟩
    | .row sid group title text link =>
      let song : Song :=
        { ID := sid, GroupName := group, SongTitle := title, ReleaseDate := [],
          Text := match text with
            | some t => t
            | none => [],
          Link := match link with
            | some l => l
            | none => [] }
      let verseParam := queryGet req.verse
      if verseParam ≠ [] then
        match Atoi verseParam with
        | none => ⟨StatusBadRequest, .message "Некорректный номер куплета"⟩
        | some verse =>
          if verse ≤ 0 then ⟨StatusBadRequest, .message "Некорректный номер куплета"⟩
          else
            let verses := Split song.Text verseSep
            if verse > (verses.length : Int) then
              ⟨StatusNotFound, .message "Куплет отсутствует"⟩
            else ⟨StatusOK, .song { song with Text := verses.getD (verse - 1).toNat [] }⟩
      else ⟨StatusOK, .song song⟩

/-! ## An in-memory songs table -/

/-- A row of the `songs` table: the three enrichment columns are nullable. -/
structure Row where
  id : Int
  group_name : Str
  song_title : Str
  release_date : Option Str
  text : Option Str
  link : Option Str
  deriving DecidableEq

/-- Modelled from the spec: the `songs` table, whose schema (the migration script
`001_create_songs_table.up.sql`) is not among the sources.  Storage assigns the
integer identifier on creation (section 3) and offers an insert returning the
generated identifier, an update by identifier and a point lookup by identifier
(section 6).  The rows and the next identifier to hand out. -/
structure Table where
  rows : List Row
  nextId : Int
  deriving DecidableEq

/-- Identifiers handed out so far are below the next one, so the identifier of
a new row names no older row. -/
def Table.Fresh (t : Table) : Prop := ∀ r ∈ t.rows, r.id < t.nextId

instance (t : Table) : Decidable t.Fresh := by
  unfold Table.Fresh
  infer_instance

/-- The column values `UPDATE songs SET release_date, text, link WHERE id` writes. -/
def Row.setDetails (r : Row) (releaseDate text link : Str) (id : Int) : Row :=
  if r.id = id then
    { r with release_date := some releaseDate, text := some text, link := some link }
  else r

/-- Modelled from the spec: a storage whose statements all succeed, over `Table`
(the schema is not among the sources).  The insert populates only group name and
song title (section 4.1, step 1). -/
def memStorage : Storage Table where
  insertSong t group title :=
    ({ rows := t.rows ++ [⟨t.nextId, group, title, none, none, none⟩],
       nextId := t.nextId + 1 }, some t.nextId)
  updateDetails t releaseDate text link id :=
    ({ t with rows := t.rows.map (fun r => r.setDetails releaseDate text link id) }, true)
  selectSong t id :=
    match t.rows.find? (fun r => r.id = id) with
    | none => .noRows
    | some r => .row r.id r.group_name r.song_title r.text r.link

/-- The stored row with a given identifier. -/
def Table.lookup (t : Table) (id : Int) : Option Row := t.rows.find? (fun r => r.id = id)

/-! ## Sample environments -/

/-- An empty table whose next identifier is 1. -/
def sampleTable : Table := ⟨[], 1⟩

/-- A table holding one song, identifier 1, with the given text column. -/
def oneSong (text : Option Str) : Table := ⟨[⟨1, [71], [84], none, text, none⟩], 2⟩

/-- No provider configured: `EXTERNAL_API_URL` is empty. -/
def mockEnv : Env := ⟨[], fun _ _ _ => .transportError⟩

/-- A provider at `http://p` whose reply decodes to a detail without link. -/
def incompleteEnv : Env :=
  ⟨ofString "http://p", fun _ _ _ =>
    .response StatusOK (some ⟨ofString "2006-07-16", ofString "la", []⟩)⟩

/-- The in-memory storage, except that the UPDATE fails. -/
def failingUpdate : Storage Table :=
  { memStorage with updateDetails := fun t _ _ _ _ => (t, false) }

/-- The in-memory storage, except that the INSERT fails. -/
def failingInsert : Storage Table :=
  { memStorage with insertSong := fun t _ _ => (t, none) }

/-! ## Verse segmentation as the specification words it -/

/-- Puts a byte in front of the first segment. -/
def consHead (c : UInt8) : List Str → List Str
  | [] => [[c]]
  | h :: t => (c :: h) :: t

/-- The segments of a text, scanning left to right: where two consecutive line
breaks stand, the current segment ends and the scan resumes after them; any
other byte belongs to the current segment. -/
def segments : Str → List Str
  | [] => [[]]
  | [c] => [[c]]
  | c :: d :: rest =>
    if c = 10 ∧ d = 10 then [] :: segments rest else consHead c (segments (d :: rest))

/-- The number of non-overlapping occurrences of two consecutive line breaks,
scanning left to right. -/
def separatorCount : Str → Nat
  | [] => 0
  | [_] => 0
  | c :: d :: rest =>
    if c = 10 ∧ d = 10 then separatorCount rest + 1 else separatorCount (d :: rest)

/-! ## Listing: pagination -/

/-- Go `int` arithmetic on a 64-bit platform: the mathematical result of an
operation, wrapped around to the signed 64-bit range. -/
def wrapInt (x : Int) : Int := (x + 2 ^ 63) % 2 ^ 64 - 2 ^ 63

/-- The query values `ListSongsHandler` reads from `GET /songs` (`none` when the
parameter is absent). -/
structure ListRequest where
  group_name : Option Str
  song_title : Option Str
  release_date : Option Str
  page : Option Str
  limit : Option Str

/-- The arguments `$1 .. $5` of the listing query: the three filters, `LIMIT`
and `OFFSET`. -/
structure ListQuery where
  groupName : Str
  songTitle : Str
  releaseDate : Str
  limit : Int
  offset : Int
  deriving DecidableEq

/-- What `h.DB.Query` and the scan loop of `ListSongsHandler` yield: the query
fails, a `rows.Scan` fails, or all rows (`id`, `group_name`, `song_title`). -/
inductive QueryResult where
  | queryError
  | scanError
  | rows (rs : List (Int × Str × Str))
  deriving DecidableEq

/-- What `ListSongsHandler` writes: the text of `http.Error` or the encoded
slice of songs. -/
inductive ListBody where
  | message (msg : String)
  | songs (l : List Song)
  deriving DecidableEq

/-- The response of `ListSongsHandler`. -/
structure ListResponse where
  status : Nat
  body : ListBody
  deriving DecidableEq

/-- `ListSongsHandler`: the response and the arguments passed to `h.DB.Query`;
`query` is the database answering the listing query. -/
def ListSongsHandler {σ : Type} (query : σ → ListQuery → QueryResult) (db : σ)
    (req : ListRequest) : ListResponse × ListQuery :=
  let groupName := queryGet req.group_name
  let songTitle := queryGet req.song_title
  let releaseDate := queryGet req.release_date
  let page : Int :=
    match Atoi (queryGet req.page) with
    | none => 1
    | some p => if p ≤ 0 then 1 else p
  let limit : Int :=
    match Atoi (queryGet req.limit) with
    | none => 10
    | some l => if l ≤ 0 then 10 else l
  let offset := wrapInt (wrapInt (page - 1) * limit)
  let args : ListQuery := ⟨groupName, songTitle, releaseDate, limit, offset⟩
  match query db args with
  | .queryError => (⟨StatusInternalServerError, .message "Ошибка выполнения запроса"⟩, args)
  | .scanError => (⟨StatusInternalServerError, .message "Ошибка чтения данных"⟩, args)
  | .rows rs =>
    (⟨StatusOK, .songs (rs.map (fun r => ⟨r.1, r.2.1, r.2.2, [], [], []⟩))⟩, args)

/-- A database without songs. -/
def emptyListing : Unit → ListQuery → QueryResult := fun _ _ => .rows []

/-- The arguments `ListSongsHandler` computes for the listing query, on their
own (`ListSongsHandler_args`: they are what the handler passes, whatever the
database answers). -/
def listArgs (req : ListRequest) : ListQuery :=
  (ListSongsHandler emptyListing () req).2

/-! ## Lemmas: `Index`, `Count` and `genSplit` at the separator `"\n\n"` -/

theorem Index_nil_sep : Index [] verseSep = none := rfl

theorem Index_single_sep (c : UInt8) : Index [c] verseSep = none := by
  simp [Index, verseSep]

theorem Index_sep_hit (rest : Str) : Index (10 :: 10 :: rest) verseSep = some 0 := by
  simp [Index, verseSep]

theorem Index_sep_miss (c d : UInt8) (rest : Str) (h : ¬ (c = 10 ∧ d = 10)) :
    Index (c :: d :: rest) verseSep = (Index (d :: rest) verseSep).map (· + 1) := by
  have hp : verseSep.isPrefixOf (c :: d :: rest) = false := by
    cases hb : verseSep.isPrefixOf (c :: d :: rest) with
    | false => rfl
    | true =>
      simp [verseSep, List.isPrefixOf] at hb
      exact absurd ⟨hb.1.symm, hb.2.symm⟩ h
  rw [Index, hp]; rfl

theorem countLoop_verseSep :
    ∀ (s : Str) (fuel n : Nat), s.length < fuel →
      countLoop fuel s verseSep n = n + separatorCount s
  | [], fuel, n, h => by
    obtain ⟨f, rfl⟩ : ∃ f, fuel = f + 1 := ⟨fuel - 1, by omega⟩
    simp [countLoop, Index_nil_sep, separatorCount]
  | [c], fuel, n, h => by
    obtain ⟨f, rfl⟩ : ∃ f, fuel = f + 1 := ⟨fuel - 1, by omega⟩
    simp [countLoop, Index_single_sep, separatorCount]
  | c :: d :: rest, fuel, n, h => by
    obtain ⟨f, rfl⟩ : ∃ f, fuel = f + 1 := ⟨fuel - 1, by omega⟩
    simp only [List.length_cons] at h
    by_cases hcd : c = 10 ∧ d = 10
    · obtain ⟨rfl, rfl⟩ := hcd
      have ih := countLoop_verseSep rest f (n + 1) (by omega)
      have hd : List.drop (0 + verseSep.length) (10 :: 10 :: rest) = rest := rfl
      rw [countLoop, Index_sep_hit]
      simp only [hd, ih, separatorCount, and_self, if_true]
      omega
    · have ih := countLoop_verseSep (d :: rest) (f + 1) n (by simp only [List.length_cons]; omega)
      have hs : separatorCount (c :: d :: rest) = separatorCount (d :: rest) := by
        simp [separatorCount, hcd]
      rw [hs, ← ih]
      simp only [countLoop, Index_sep_miss c d rest hcd]
      cases Index (d :: rest) verseSep with
      | none => rfl
      | some m =>
        simp only [Option.map_some', List.drop_succ_cons, Nat.add_right_comm m 1]

theorem Count_verseSep (s : Str) : Count s verseSep = separatorCount s := by
  simp [Count, countLoop_verseSep s (s.length + 1) 0 (Nat.lt_succ_self _)]

theorem separatorCount_le : ∀ s : Str, separatorCount s ≤ s.length
  | [] => by simp [separatorCount]
  | [_] => by simp [separatorCount]
  | c :: d :: rest => by
    have h1 := separatorCount_le rest
    have h2 := separatorCount_le (d :: rest)
    simp only [List.length_cons] at h2 ⊢
    by_cases hcd : c = 10 ∧ d = 10
    · simp only [separatorCount, hcd, and_self, if_true]; omega
    · simp only [separatorCount, hcd, if_false]; omega

theorem segments_ne_nil : ∀ s : Str, segments s ≠ []
  | [] => by simp [segments]
  | [_] => by simp [segments]
  | c :: d :: rest => by
    by_cases hcd : c = 10 ∧ d = 10
    · simp [segments, hcd]
    · simp only [segments, hcd, if_false]
      cases segments (d :: rest) <;> simp [consHead]

theorem genSplitLoop_verseSep :
    ∀ (s : Str) (k : Nat), separatorCount s ≤ k → genSplitLoop k s verseSep 0 = segments s
  | [], k, _ => by
    cases k <;> simp [genSplitLoop, Index_nil_sep, segments]
  | [c], k, _ => by
    cases k <;> simp [genSplitLoop, Index_single_sep, segments]
  | c :: d :: rest, k, h => by
    by_cases hcd : c = 10 ∧ d = 10
    · obtain ⟨rfl, rfl⟩ := hcd
      simp only [separatorCount, and_self, if_true] at h
      obtain ⟨j, rfl⟩ : ∃ j, k = j + 1 := ⟨k - 1, by omega⟩
      have ih := genSplitLoop_verseSep rest j (by omega)
      have hd : List.drop (0 + verseSep.length) (10 :: 10 :: rest) = rest := rfl
      rw [genSplitLoop, Index_sep_hit]
      simp only [hd, ih, segments, and_self, if_true, Nat.add_zero, List.take_zero]
    · have hs : separatorCount (c :: d :: rest) = separatorCount (d :: rest) := by
        simp [separatorCount, hcd]
      have ih := genSplitLoop_verseSep (d :: rest) k (hs ▸ h)
      simp only [segments, hcd, if_false, ← ih]
      cases k with
      | zero => simp [genSplitLoop, consHead]
      | succ j =>
        simp only [genSplitLoop, Index_sep_miss c d rest hcd]
        cases Index (d :: rest) verseSep with
        | none => simp [consHead]
        | some m =>
          simp only [Option.map_some', consHead, Nat.add_zero, List.take_succ_cons,
            List.drop_succ_cons, Nat.add_right_comm m 1]

/-- `strings.Split(text, "\n\n")` computes the segments of the left-to-right scan. -/
theorem Split_verseSep (s : Str) : Split s verseSep = segments s := by
  have hle := separatorCount_le s
  have hk : (if Count s verseSep + 1 > s.length + 1 then s.length + 1
      else Count s verseSep + 1) - 1 = separatorCount s := by
    rw [Count_verseSep]
    split <;> omega
  have h0 : ¬ ((-1 : Int) = 0) := by decide
  have h1 : (-1 : Int) < 0 := by decide
  simp only [Split, genSplit, h0, h1, if_true, if_false, hk]
  exact genSplitLoop_verseSep s _ (Nat.le_refl _)

theorem segments_length : ∀ s : Str, (segments s).length = separatorCount s + 1
  | [] => by simp [segments, separatorCount]
  | [_] => by simp [segments, separatorCount]
  | c :: d :: rest => by
    have h1 := segments_length rest
    have h2 := segments_length (d :: rest)
    by_cases hcd : c = 10 ∧ d = 10
    · simp only [segments, separatorCount, hcd, and_self, if_true, List.length_cons, h1]
    · simp only [segments, separatorCount, hcd, if_false]
      rw [← h2]
      cases hseg : segments (d :: rest) with
      | nil => exact absurd hseg (segments_ne_nil _)
      | cons a t => simp [consHead]

theorem Atoi_nil : Atoi [] = none := rfl

theorem Atoi_ne_nil (v : Str) (i : Int) (h : Atoi v = some i) : v ≠ [] := by
  intro hv
  rw [hv, Atoi_nil] at h
  cases h

/-- `GetSongHandler` on an existing record, once the verse parameter has parsed
to a positive number. -/
theorem GetSongHandler_verse {σ : Type} (S : Storage σ) (db : σ) (req : GetRequest)
    (id sid : Int) (group title : Str) (text link : Option Str) (v : Str) (i : Int)
    (hid : Atoi req.id = some id)
    (hrow : S.selectSong db id = .row sid group title text link)
    (hv : req.verse = some v) (hi : Atoi v = some i) (hpos : 1 ≤ i) :
    GetSongHandler S db req =
      if i > ((segments (text.getD [])).length : Int) then
        ⟨StatusNotFound, .message "Куплет отсутствует"⟩
      else
        ⟨StatusOK, .song ⟨sid, group, title, [], (segments (text.getD [])).getD (i - 1).toNat [],
          link.getD []⟩⟩ := by
  have hne : v ≠ [] := Atoi_ne_nil v i hi
  have hnp : ¬ i ≤ 0 := by omega
  cases text <;> cases link <;>
    simp [GetSongHandler, hid, hrow, hv, queryGet, hne, hi, hnp, Split_verseSep]

/-- `GetSongHandler` on an existing record without a verse parameter. -/
theorem GetSongHandler_plain {σ : Type} (S : Storage σ) (db : σ) (req : GetRequest)
    (id sid : Int) (group title : Str) (text link : Option Str)
    (hid : Atoi req.id = some id)
    (hrow : S.selectSong db id = .row sid group title text link)
    (hv : queryGet req.verse = []) :
    GetSongHandler S db req =
      ⟨StatusOK, .song ⟨sid, group, title, [], text.getD [], link.getD []⟩⟩ := by
  cases text <;> cases link <;> simp [GetSongHandler, hid, hrow, hv]

/-- `GetSongHandler` on an existing record whose non-empty verse parameter
`strconv.Atoi` rejects. -/
theorem GetSongHandler_verse_unparsed {σ : Type} (S : Storage σ) (db : σ) (req : GetRequest)
    (id sid : Int) (group title : Str) (text link : Option Str) (v : Str)
    (hid : Atoi req.id = some id)
    (hrow : S.selectSong db id = .row sid group title text link)
    (hv : req.verse = some v) (hne : v ≠ []) (hnone : Atoi v = none) :
    GetSongHandler S db req = ⟨StatusBadRequest, .message "Некорректный номер куплета"⟩ := by
  simp [GetSongHandler, hid, hrow, hv, queryGet, hne, hnone]

/-- A run of decimal digits whose value is `2^63` or more is out of the range
of `int`: `strconv.Atoi` returns an error. -/
theorem Atoi_out_of_range (v : Str) (n : Nat) (hd : digitsValue v 0 = some n)
    (hn : 2 ^ 63 ≤ n) : v ≠ [] ∧ Atoi v = none := by
  cases v with
  | nil =>
    simp only [digitsValue, Option.some.injEq] at hd
    omega
  | cons c rest =>
    refine ⟨List.cons_ne_nil _ _, ?_⟩
    have hc : 48 ≤ c ∧ c ≤ 57 := by
      by_contra hcon
      simp [digitsValue, hcon] at hd
    have h45 : c ≠ 45 := by
      rintro rfl
      exact absurd hc.1 (by decide)
    have h43 : c ≠ 43 := by
      rintro rfl
      exact absurd hc.1 (by decide)
    simp only [Atoi, h45, h43, or_self, if_false, hd]
    rw [if_neg (List.cons_ne_nil _ _), if_neg (by omega)]

/-! ## Lemmas: the provider and the in-memory table -/

theorem mockDetail_complete :
    mockDetail.ReleaseDate ≠ [] ∧ mockDetail.Text ≠ [] ∧ mockDetail.Link ≠ [] := by
  refine ⟨?_, ?_, ?_⟩ <;> decide

theorem fetchSongDetails_ok_complete (env : Env) (group song : Str) (d : SongDetail)
    (h : (fetchSongDetails env group song).1 = .ok d) :
    d.ReleaseDate ≠ [] ∧ d.Text ≠ [] ∧ d.Link ≠ [] := by
  unfold fetchSongDetails at h
  split at h
  · simp only [Except.ok.injEq] at h
    exact h ▸ mockDetail_complete
  · split at h
    · cases h
    · cases h
    · split at h
      · cases h
      · split at h
        · cases h
        · split at h
          · cases h
          · simp only [Except.ok.injEq] at h
            subst h
            rename_i hc
            simp only [not_or] at hc
            exact hc

theorem fetchSongDetails_calls (env : Env) (group song : Str) :
    ∀ c ∈ (fetchSongDetails env group song).2, c = .provider env.EXTERNAL_API_URL group song := by
  unfold fetchSongDetails
  intro c hc
  split at hc
  · simp at hc
  · split at hc
    · simp at hc
    · simpa using hc
    · split at hc
      · simpa using hc
      · split at hc
        · simpa using hc
        · split at hc <;> simpa using hc

theorem fetchSongDetails_incomplete (env : Env) (group song : Str) (code : Nat)
    (d : SongDetail) (hurl : env.EXTERNAL_API_URL ≠ [])
    (hex : env.exchange env.EXTERNAL_API_URL group song = .response code (some d))
    (hinc : d.ReleaseDate = [] ∨ d.Text = [] ∨ d.Link = []) :
    ∃ e, (fetchSongDetails env group song).1 = .error e := by
  unfold fetchSongDetails
  rw [if_neg hurl, hex]
  by_cases hc : code ≠ StatusOK
  · exact ⟨.badStatus code, by simp [hc]⟩
  · exact ⟨.incomplete, by simp [hc, hinc]⟩

theorem find_fresh (rows : List Row) (k : Int) (x : Row) (hx : x.id = k)
    (h : ∀ r ∈ rows, r.id < k) :
    (rows ++ [x]).find? (fun r => r.id = k) = some x := by
  induction rows with
  | nil => simp [hx]
  | cons a l ih =>
    have ha : a.id ≠ k := by
      have := h a (List.mem_cons_self _ _)
      omega
    simp only [List.cons_append, List.find?_cons, ha, decide_False]
    exact ih (fun r hr => h r (List.mem_cons_of_mem _ hr))

theorem find_setDetails (rows : List Row) (k : Int) (rd tx ln : Str) :
    (rows.map (fun r => r.setDetails rd tx ln k)).find? (fun r => r.id = k) =
      (rows.find? (fun r => r.id = k)).map (fun r => r.setDetails rd tx ln k) := by
  induction rows with
  | nil => rfl
  | cons a l ih =>
    have hid : (a.setDetails rd tx ln k).id = a.id := by
      unfold Row.setDetails
      split <;> rfl
    simp only [List.map_cons, List.find?_cons, hid]
    by_cases ha : a.id = k
    · simp [ha]
    · simp [ha, ih]

/-- The table after `AddSongHandler` on the in-memory storage holds, under the
returned identifier, the new row: enriched when `fetchSongDetails` succeeded,
with the three columns NULL otherwise. -/
theorem AddSongHandler_mem (env : Env) (t : Table) (group title : Str) (hf : t.Fresh) :
    (AddSongHandler memStorage env t (some ⟨group, title⟩)).resp
        = ⟨StatusCreated, .created t.nextId⟩ ∧
      (AddSongHandler memStorage env t (some ⟨group, title⟩)).db.lookup t.nextId =
        match (fetchSongDetails env group title).1 with
        | .error _ => some ⟨t.nextId, group, title, none, none, none⟩
        | .ok d => some ⟨t.nextId, group, title, some d.ReleaseDate, some d.Text, some d.Link⟩ := by
  have hfind := find_fresh t.rows t.nextId ⟨t.nextId, group, title, none, none, none⟩ rfl hf
  simp only [AddSongHandler, memStorage]
  rcases hfd : fetchSongDetails env group title with ⟨r, pcalls⟩
  cases r with
  | error e => exact ⟨rfl, hfind⟩
  | ok d =>
    refine ⟨rfl, ?_⟩
    show List.find? (fun r : Row => decide (r.id = t.nextId))
      (List.map (fun r : Row => r.setDetails d.ReleaseDate d.Text d.Link t.nextId)
        (t.rows ++ [(⟨t.nextId, group, title, none, none, none⟩ : Row)])) = _
    rw [find_setDetails, hfind]
    simp [Row.setDetails]

theorem fetchSongDetails_mock (env : Env) (group song : Str) (hurl : env.EXTERNAL_API_URL = []) :
    fetchSongDetails env group song = (.ok mockDetail, []) := by
  simp [fetchSongDetails, hurl]

theorem memStorage_select (t : Table) (id : Int) (r : Row) (h : t.lookup id = some r) :
    memStorage.selectSong t id = .row r.id r.group_name r.song_title r.text r.link := by
  simp only [Table.lookup] at h
  simp only [memStorage, h]

/-- With no provider configured, creation on the in-memory storage followed by a
fetch of the returned identifier: the response of the creation, the response of
the fetch and the stored row. -/
theorem mock_add_then_get (env : Env) (t : Table) (group title idParam : Str)
    (hurl : env.EXTERNAL_API_URL = []) (hf : t.Fresh) (hid : Atoi idParam = some t.nextId) :
    (AddSongHandler memStorage env t (some ⟨group, title⟩)).resp
        = ⟨StatusCreated, .created t.nextId⟩ ∧
      GetSongHandler memStorage (AddSongHandler memStorage env t (some ⟨group, title⟩)).db
          ⟨idParam, none⟩
        = ⟨StatusOK, .song ⟨t.nextId, group, title, [], mockText,
            ofString "https://www.youtube.com/watch?v=Xsp3_a-PMTw"⟩⟩ ∧
      (AddSongHandler memStorage env t (some ⟨group, title⟩)).db.lookup t.nextId
        = some ⟨t.nextId, group, title, some (ofString "2006-07-16"), some mockText,
            some (ofString "https://www.youtube.com/watch?v=Xsp3_a-PMTw")⟩ := by
  obtain ⟨h1, h2⟩ := AddSongHandler_mem env t group title hf
  rw [fetchSongDetails_mock env group title hurl] at h2
  refine ⟨h1, ?_, h2⟩
  exact GetSongHandler_plain memStorage _ ⟨idParam, none⟩ t.nextId t.nextId group title
    (some mockText) (some (ofString "https://www.youtube.com/watch?v=Xsp3_a-PMTw")) hid
    (memStorage_select _ _ _ h2) rfl

theorem sampleTable_fresh : sampleTable.Fresh := by decide

set_option maxRecDepth 100000 in
/-- The mock lyric has two verses. -/
theorem mockText_verses :
    Split mockText verseSep =
      [ofString "Ooh baby, don\x27t you know I suffer?\nOoh baby, can you hear me moan?\nYou caught me under false pretenses\nHow long before you let me go?",
       ofString "Ooh\nYou set my soul alight\nOoh\nYou set my soul alight"] := by
  rw [Split_verseSep]
  decide

/-! ## Properties of the handlers -/

/-- C1: whenever the base INSERT of `AddSongHandler` succeeds with identifier `id`,
the response is 201 with the body `{"id": id}`, for every environment (every
outcome of `fetchSongDetails`) and every storage (every outcome of the UPDATE). -/
theorem AddSongHandler_created {σ : Type} (S : Storage σ) (env : Env) (db db₁ : σ)
    (input : AddSongRequest) (id : Int)
    (hins : S.insertSong db input.Group input.Song = (db₁, some id)) :
    (AddSongHandler S env db (some input)).resp = ⟨StatusCreated, .created id⟩ := by
  simp only [AddSongHandler, hins]
  rcases hf : fetchSongDetails env input.Group input.Song with ⟨r, pcalls⟩
  cases r <;> rfl

/-- An instance of C1 where the provider answers (mock data) and the UPDATE fails. -/
theorem AddSongHandler_created_witness :
    failingUpdate.insertSong sampleTable [71] [84] =
        (⟨[⟨1, [71], [84], none, none, none⟩], 2⟩, some 1) ∧
      (AddSongHandler failingUpdate mockEnv sampleTable (some ⟨[71], [84]⟩)).resp
        = ⟨StatusCreated, .created 1⟩ :=
  ⟨rfl, AddSongHandler_created failingUpdate mockEnv sampleTable
    ⟨[⟨1, [71], [84], none, none, none⟩], 2⟩ ⟨[71], [84]⟩ 1 rfl⟩

/-- C2: on an existing record, a verse index `i` with `1 ≤ i ≤ n`, where
`s_1 .. s_n` are the segments of the stored text (left-to-right split at two
consecutive line breaks), gives 200 with the song text exactly `s_i`. -/
theorem GetSongHandler_verse_in_range {σ : Type} (S : Storage σ) (db : σ) (req : GetRequest)
    (id sid : Int) (group title : Str) (text link : Option Str) (v : Str) (i : Int)
    (hid : Atoi req.id = some id)
    (hrow : S.selectSong db id = .row sid group title text link)
    (hv : req.verse = some v) (hi : Atoi v = some i)
    (hlo : 1 ≤ i) (hhi : i ≤ ((segments (text.getD [])).length : Int)) :
    ∃ seg, (segments (text.getD []))[(i - 1).toNat]? = some seg ∧
      GetSongHandler S db req =
        ⟨StatusOK, .song ⟨sid, group, title, [], seg, link.getD []⟩⟩ := by
  have hlt : (i - 1).toNat < (segments (text.getD [])).length := by omega
  refine ⟨(segments (text.getD []))[(i - 1).toNat], List.getElem?_eq_getElem hlt, ?_⟩
  rw [GetSongHandler_verse S db req id sid group title text link v i hid hrow hv hi hlo,
    if_neg (by omega)]
  rw [List.getD_eq_getElem?_getD, List.getElem?_eq_getElem hlt]
  rfl

/-- The examples of C2: text `"A\n\nB\n\nC"` gives `"A"` at index 1 and `"B"` at
index 2; the empty text gives the empty string at index 1. -/
theorem GetSongHandler_verse_in_range_witness :
    GetSongHandler memStorage (oneSong (some (ofString "A\n\nB\n\nC")))
        ⟨ofString "1", some (ofString "1")⟩
        = ⟨StatusOK, .song ⟨1, [71], [84], [], ofString "A", []⟩⟩ ∧
      GetSongHandler memStorage (oneSong (some (ofString "A\n\nB\n\nC")))
        ⟨ofString "1", some (ofString "2")⟩
        = ⟨StatusOK, .song ⟨1, [71], [84], [], ofString "B", []⟩⟩ ∧
      GetSongHandler memStorage (oneSong (some []))
        ⟨ofString "1", some (ofString "1")⟩
        = ⟨StatusOK, .song ⟨1, [71], [84], [], [], []⟩⟩ := by
  refine ⟨?_, ?_, ?_⟩
  · obtain ⟨seg, h1, h2⟩ := GetSongHandler_verse_in_range memStorage
      (oneSong (some (ofString "A\n\nB\n\nC")))
      ⟨ofString "1", some (ofString "1")⟩ 1 1 [71] [84] (some (ofString "A\n\nB\n\nC")) none
      (ofString "1") 1 (by decide) (by decide) rfl (by decide) (by decide) (by decide)
    have h3 : (segments (ofString "A\n\nB\n\nC"))[0]? = some (ofString "A") := by decide
    rw [h2, Option.some.inj (h1.symm.trans h3)]
    rfl
  · obtain ⟨seg, h1, h2⟩ := GetSongHandler_verse_in_range memStorage
      (oneSong (some (ofString "A\n\nB\n\nC")))
      ⟨ofString "1", some (ofString "2")⟩ 1 1 [71] [84] (some (ofString "A\n\nB\n\nC")) none
      (ofString "2") 2 (by decide) (by decide) rfl (by decide) (by decide) (by decide)
    have h3 : (segments (ofString "A\n\nB\n\nC"))[1]? = some (ofString "B") := by decide
    rw [h2, Option.some.inj (h1.symm.trans h3)]
    rfl
  · obtain ⟨seg, h1, h2⟩ := GetSongHandler_verse_in_range memStorage
      (oneSong (some []))
      ⟨ofString "1", some (ofString "1")⟩ 1 1 [71] [84] (some []) none
      (ofString "1") 1 (by decide) (by decide) rfl (by decide) (by decide) (by decide)
    have h3 : (segments ([] : Str))[0]? = some [] := by decide
    rw [h2, Option.some.inj (h1.symm.trans h3)]
    rfl

/-- C3 as stated fails: the supplied verse index `9223372036854775808` (`2^63`)
is at least 1 and above the one segment of the empty text, yet the response is
400, not 404, because `strconv.Atoi` rejects a number outside `int`. -/
theorem GetSongHandler_verse_huge_bad_request :
    digitsValue (ofString "9223372036854775808") 0 = some (2 ^ 63) ∧
      (segments ([] : Str)).length = 1 ∧
      GetSongHandler memStorage (oneSong (some []))
          ⟨ofString "1", some (ofString "9223372036854775808")⟩
        = ⟨StatusBadRequest, .message "Некорректный номер куплета"⟩ ∧
      (GetSongHandler memStorage (oneSong (some []))
          ⟨ofString "1", some (ofString "9223372036854775808")⟩).status ≠ StatusNotFound := by
  decide

/-- C3, amended: on an existing record, for a supplied verse index `i ≥ 1` that
fits an `int` (`strconv.Atoi` parses it), the response is 404 exactly when `i`
exceeds the number of segments of the stored text, which is the number of
non-overlapping two-line-break separators plus one; that response is never the
400 of an invalid request; on an empty text every such index above 1 is not
found.  A supplied decimal index of `2^63` or more gets the 400 response. -/
theorem GetSongHandler_verse_not_found_iff {σ : Type} (S : Storage σ) (db : σ)
    (req : GetRequest) (id sid : Int) (group title : Str) (text link : Option Str)
    (v : Str)
    (hid : Atoi req.id = some id)
    (hrow : S.selectSong db id = .row sid group title text link)
    (hv : req.verse = some v) :
    (∀ i : Int, Atoi v = some i → 1 ≤ i →
      ((GetSongHandler S db req).status = StatusNotFound ↔
          ((separatorCount (text.getD []) + 1 : Nat) : Int) < i) ∧
        (GetSongHandler S db req).status ≠ StatusBadRequest ∧
        (text.getD [] = [] → 1 < i →
          GetSongHandler S db req = ⟨StatusNotFound, .message "Куплет отсутствует"⟩)) ∧
      (segments (text.getD [])).length = separatorCount (text.getD []) + 1 ∧
      (∀ n : Nat, digitsValue v 0 = some n → 2 ^ 63 ≤ n →
        GetSongHandler S db req
          = ⟨StatusBadRequest, .message "Некорректный номер куплета"⟩) := by
  have hlen := segments_length (text.getD [])
  refine ⟨?_, hlen, ?_⟩
  · intro i hi hlo
    have hG := GetSongHandler_verse S db req id sid group title text link v i hid hrow hv hi hlo
    rw [hlen] at hG
    refine ⟨?_, ?_, ?_⟩
    · rw [hG]
      split
      · simpa using (by assumption)
      · simp only [StatusOK, StatusNotFound]
        constructor
        · intro h; cases h
        · intro h; exact absurd h (by assumption)
    · rw [hG]
      split <;> simp [StatusNotFound, StatusOK, StatusBadRequest]
    · intro he h1
      rw [hG, he, if_pos]
      simpa [separatorCount] using h1
  · intro n hd hn
    obtain ⟨hne, hnone⟩ := Atoi_out_of_range v n hd hn
    exact GetSongHandler_verse_unparsed S db req id sid group title text link v hid hrow hv
      hne hnone

/-- An instance of amended C3: the empty text has one segment, index 2 is not
found. -/
theorem GetSongHandler_verse_not_found_iff_witness :
    GetSongHandler memStorage (oneSong (some []))
        ⟨ofString "1", some (ofString "2")⟩
      = ⟨StatusNotFound, .message "Куплет отсутствует"⟩ :=
  ((GetSongHandler_verse_not_found_iff memStorage (oneSong (some []))
    ⟨ofString "1", some (ofString "2")⟩ 1 1 [71] [84] (some []) none (ofString "2")
    (by decide) (by decide) rfl).1 2 (by decide) (by decide)).2.2 rfl (by decide)

/-- C4: on an existing record, a verse parameter that parses to an integer `≤ 0`
gives the 400 response, the same for every stored text and link. -/
theorem GetSongHandler_verse_nonpositive {σ : Type} (S : Storage σ) (db : σ)
    (req : GetRequest) (id sid : Int) (group title : Str) (text link : Option Str)
    (v : Str) (i : Int)
    (hid : Atoi req.id = some id)
    (hrow : S.selectSong db id = .row sid group title text link)
    (hv : req.verse = some v) (hi : Atoi v = some i) (hle : i ≤ 0) :
    GetSongHandler S db req = ⟨StatusBadRequest, .message "Некорректный номер куплета"⟩ := by
  have hne : v ≠ [] := Atoi_ne_nil v i hi
  simp [GetSongHandler, hid, hrow, hv, queryGet, hne, hi, hle]

/-- An instance of C4: verse `0` and verse `-3` on a three-segment text. -/
theorem GetSongHandler_verse_nonpositive_witness :
    GetSongHandler memStorage (oneSong (some (ofString "A\n\nB\n\nC")))
        ⟨ofString "1", some (ofString "0")⟩
        = ⟨StatusBadRequest, .message "Некорректный номер куплета"⟩ ∧
      GetSongHandler memStorage (oneSong (some (ofString "A\n\nB\n\nC")))
        ⟨ofString "1", some (ofString "-3")⟩
        = ⟨StatusBadRequest, .message "Некорректный номер куплета"⟩ :=
  ⟨GetSongHandler_verse_nonpositive memStorage (oneSong (some (ofString "A\n\nB\n\nC")))
      ⟨ofString "1", some (ofString "0")⟩ 1 1 [71] [84] (some (ofString "A\n\nB\n\nC")) none
      (ofString "0") 0 (by decide) (by decide) rfl (by decide) (by decide),
    GetSongHandler_verse_nonpositive memStorage (oneSong (some (ofString "A\n\nB\n\nC")))
      ⟨ofString "1", some (ofString "-3")⟩ 1 1 [71] [84] (some (ofString "A\n\nB\n\nC")) none
      (ofString "-3") (-3) (by decide) (by decide) rfl (by decide) (by decide)⟩

/-- C5: when a provider is configured and its decoded reply lacks one of release
date, text or link, `fetchSongDetails` returns an error, `AddSongHandler` issues
no UPDATE and leaves the storage as the insert left it, and the created row keeps
the three enrichment columns NULL; conversely every UPDATE `AddSongHandler`
issues, in any environment, carries three non-empty values. -/
theorem incomplete_details_never_stored (env : Env) (group title : Str) (code : Nat)
    (d : SongDetail) (hurl : env.EXTERNAL_API_URL ≠ [])
    (hex : env.exchange env.EXTERNAL_API_URL group title = .response code (some d))
    (hinc : d.ReleaseDate = [] ∨ d.Text = [] ∨ d.Link = []) :
    (∃ e, (fetchSongDetails env group title).1 = .error e) ∧
      (∀ (σ : Type) (S : Storage σ) (db : σ),
        (∀ rd tx ln id,
          Call.update rd tx ln id ∉ (AddSongHandler S env db (some ⟨group, title⟩)).calls) ∧
        (AddSongHandler S env db (some ⟨group, title⟩)).db = (S.insertSong db group title).1) ∧
      (∀ t : Table, t.Fresh →
        (AddSongHandler memStorage env t (some ⟨group, title⟩)).db.lookup t.nextId
          = some ⟨t.nextId, group, title, none, none, none⟩) ∧
      (∀ (σ : Type) (S : Storage σ) (env₂ : Env) (db : σ) (body : Option AddSongRequest)
          (rd tx ln : Str) (id : Int),
        Call.update rd tx ln id ∈ (AddSongHandler S env₂ db body).calls →
          rd ≠ [] ∧ tx ≠ [] ∧ ln ≠ []) := by
  obtain ⟨e, he⟩ := fetchSongDetails_incomplete env group title code d hurl hex hinc
  refine ⟨⟨e, he⟩, ?_, ?_, ?_⟩
  · intro σ S db
    have hc := fetchSongDetails_calls env group title
    rcases hfd : fetchSongDetails env group title with ⟨r, pcalls⟩
    rw [hfd] at he hc
    simp only at he
    subst he
    rcases hins : S.insertSong db group title with ⟨db₁, oid⟩
    cases oid with
    | none => simp [AddSongHandler, hins]
    | some id =>
      simp only [AddSongHandler, hins, hfd, List.mem_cons, not_or, and_true]
      intro rd tx ln k
      refine ⟨by simp, ?_⟩
      intro hm
      have := hc _ hm
      cases this
  · intro t hf
    have h := (AddSongHandler_mem env t group title hf).2
    rw [he] at h
    exact h
  · intro σ S env₂ db body rd tx ln id hm
    cases body with
    | none => simp [AddSongHandler] at hm
    | some input =>
      have hc := fetchSongDetails_calls env₂ input.Group input.Song
      have hok := fetchSongDetails_ok_complete env₂ input.Group input.Song
      rcases hfd : fetchSongDetails env₂ input.Group input.Song with ⟨r, pcalls⟩
      rw [hfd] at hc hok
      rcases hins : S.insertSong db input.Group input.Song with ⟨db₁, oid⟩
      cases oid with
      | none => simp [AddSongHandler, hins] at hm
      | some k =>
        cases r with
        | error e =>
          simp only [AddSongHandler, hins, hfd, List.mem_cons] at hm
          rcases hm with hm | hm
          · cases hm
          · have := hc _ hm
            cases this
        | ok d₂ =>
          simp only [AddSongHandler, hins, hfd, List.cons_append, List.mem_cons,
            List.mem_append, List.mem_singleton] at hm
          rcases hm with hm | hm | hm
          · cases hm
          · have := hc _ hm
            cases this
          · rcases hm with hm | hm
            · simp only [Call.update.injEq] at hm
              obtain ⟨h1, h2, h3, _⟩ := hm
              have := hok d₂ rfl
              rw [h1, h2, h3]
              exact this
            · exact absurd hm (List.not_mem_nil _)

/-- An instance of C5: a provider whose reply has no link; the created row of the
in-memory table has NULL in the three enrichment columns. -/
theorem incomplete_details_never_stored_witness :
    incompleteEnv.EXTERNAL_API_URL ≠ [] ∧
      incompleteEnv.exchange incompleteEnv.EXTERNAL_API_URL [71] [84]
        = .response StatusOK (some ⟨ofString "2006-07-16", ofString "la", []⟩) ∧
      (AddSongHandler memStorage incompleteEnv sampleTable (some ⟨[71], [84]⟩)).db.lookup 1
        = some ⟨1, [71], [84], none, none, none⟩ :=
  ⟨by decide, rfl,
    (incomplete_details_never_stored incompleteEnv [71] [84] StatusOK
      ⟨ofString "2006-07-16", ofString "la", []⟩ (by decide) rfl
      (Or.inr (Or.inr rfl))).2.2.1 sampleTable sampleTable_fresh⟩

/-- C6 as stated fails: with no provider configured, the song fetched after
creation carries the fallback text and link but an empty release date, not
`"2006-07-16"`. -/
theorem mock_add_then_get_release_date_empty :
    (AddSongHandler memStorage mockEnv sampleTable (some ⟨[71], [84]⟩)).resp
        = ⟨StatusCreated, .created 1⟩ ∧
      GetSongHandler memStorage
          (AddSongHandler memStorage mockEnv sampleTable (some ⟨[71], [84]⟩)).db
          ⟨ofString "1", none⟩
        = ⟨StatusOK, .song ⟨1, [71], [84], [], mockText,
            ofString "https://www.youtube.com/watch?v=Xsp3_a-PMTw"⟩⟩ ∧
      GetSongHandler memStorage
          (AddSongHandler memStorage mockEnv sampleTable (some ⟨[71], [84]⟩)).db
          ⟨ofString "1", none⟩
        ≠ ⟨StatusOK, .song ⟨1, [71], [84], ofString "2006-07-16", mockText,
            ofString "https://www.youtube.com/watch?v=Xsp3_a-PMTw"⟩⟩ := by
  have h := mock_add_then_get mockEnv sampleTable [71] [84] (ofString "1") rfl
    sampleTable_fresh (by decide)
  refine ⟨h.1, h.2.1, ?_⟩
  rw [h.2.1]
  intro hc
  have hr : ([] : Str) = ofString "2006-07-16" := by
    injection hc with _ hb
    injection hb with hs
    injection hs
  exact absurd hr (by decide)

/-- C6, amended: with no provider configured and a storage whose statements
succeed, for every group and title, creation answers 201 with the new
identifier; fetching that identifier without verse parameter answers 200 with
the given group and title, the fallback text (two verses) and the fallback
link, and an empty release date; the release date `"2006-07-16"` is in the
stored row. -/
theorem mock_add_then_get_fallback (env : Env) (t : Table) (group title idParam : Str)
    (hurl : env.EXTERNAL_API_URL = []) (hf : t.Fresh) (hid : Atoi idParam = some t.nextId) :
    (AddSongHandler memStorage env t (some ⟨group, title⟩)).resp
        = ⟨StatusCreated, .created t.nextId⟩ ∧
      GetSongHandler memStorage (AddSongHandler memStorage env t (some ⟨group, title⟩)).db
          ⟨idParam, none⟩
        = ⟨StatusOK, .song ⟨t.nextId, group, title, [], mockText,
            ofString "https://www.youtube.com/watch?v=Xsp3_a-PMTw"⟩⟩ ∧
      (AddSongHandler memStorage env t (some ⟨group, title⟩)).db.lookup t.nextId
        = some ⟨t.nextId, group, title, some (ofString "2006-07-16"), some mockText,
            some (ofString "https://www.youtube.com/watch?v=Xsp3_a-PMTw")⟩ ∧
      (Split mockText verseSep).length = 2 := by
  obtain ⟨h1, h2, h3⟩ := mock_add_then_get env t group title idParam hurl hf hid
  exact ⟨h1, h2, h3, by rw [mockText_verses]; rfl⟩

/-- An instance of amended C6 on a table that already holds a song: the new
identifier is 2. -/
theorem mock_add_then_get_fallback_witness :
    (oneSong none).Fresh ∧
      GetSongHandler memStorage
          (AddSongHandler memStorage mockEnv (oneSong none) (some ⟨[65], [66]⟩)).db
          ⟨ofString "2", none⟩
        = ⟨StatusOK, .song ⟨2, [65], [66], [], mockText,
            ofString "https://www.youtube.com/watch?v=Xsp3_a-PMTw"⟩⟩ :=
  have hf : (oneSong none).Fresh := by decide
  ⟨hf, (mock_add_then_get_fallback mockEnv (oneSong none) [65] [66] (ofString "2") rfl hf
    (by decide)).2.1⟩

/-- C7 as stated fails: a record whose text is NULL, fetched with `verse=1`, is
answered 200 with an empty text, not 404. -/
theorem GetSongHandler_null_text_verse_one_found :
    GetSongHandler memStorage (oneSong none) ⟨ofString "1", some (ofString "1")⟩
        = ⟨StatusOK, .song ⟨1, [71], [84], [], [], []⟩⟩ ∧
      (GetSongHandler memStorage (oneSong none) ⟨ofString "1", some (ofString "1")⟩).status
        ≠ StatusNotFound := by
  decide

/-- C7, amended: on an existing record whose text is NULL, `verse=1` gives 200
and a song with the empty text (the one segment of the empty string); among the
verse indices `i ≥ 1` that fit an `int`, exactly those above 1 get the 404
response. -/
theorem GetSongHandler_null_text_verse_one {σ : Type} (S : Storage σ) (db : σ)
    (req : GetRequest) (id sid : Int) (group title : Str) (link : Option Str) (v : Str)
    (i : Int)
    (hid : Atoi req.id = some id)
    (hrow : S.selectSong db id = .row sid group title none link)
    (hv : req.verse = some v) (hi : Atoi v = some i) (hlo : 1 ≤ i) :
    (i = 1 → GetSongHandler S db req
        = ⟨StatusOK, .song ⟨sid, group, title, [], [], link.getD []⟩⟩) ∧
      ((GetSongHandler S db req).status = StatusNotFound ↔ 1 < i) ∧
      (1 < i → GetSongHandler S db req
        = ⟨StatusNotFound, .message "Куплет отсутствует"⟩) := by
  have hG := GetSongHandler_verse S db req id sid group title none link v i hid hrow hv hi hlo
  have hseg : ((segments ((none : Option Str).getD [])).length : Int) = 1 := rfl
  rw [hseg] at hG
  refine ⟨?_, ?_, ?_⟩
  · intro h1
    rw [hG, if_neg (by omega), h1]
    rfl
  · by_cases h : i > 1
    · rw [hG, if_pos h]
      exact ⟨fun _ => h, fun _ => rfl⟩
    · rw [hG, if_neg h]
      constructor
      · intro hc
        simp [StatusOK, StatusNotFound] at hc
      · intro hc
        exact absurd hc h
  · intro h
    rw [hG, if_pos h]

/-- An instance of amended C7, with the parameter written `+1`. -/
theorem GetSongHandler_null_text_verse_one_witness :
    GetSongHandler memStorage (oneSong none) ⟨ofString "1", some (ofString "+1")⟩
      = ⟨StatusOK, .song ⟨1, [71], [84], [], [], []⟩⟩ :=
  (GetSongHandler_null_text_verse_one memStorage (oneSong none)
    ⟨ofString "1", some (ofString "+1")⟩ 1 1 [71] [84] none (ofString "+1") 1
    (by decide) (by decide) rfl (by decide) (by decide)).1 rfl

/-- C8: on an existing record, when the verse parameter is absent or empty, the
response is 200 and the song text is the stored text, byte for byte (the empty
string for NULL). -/
theorem GetSongHandler_full_text {σ : Type} (S : Storage σ) (db : σ)
    (req : GetRequest) (id sid : Int) (group title : Str) (text link : Option Str)
    (hid : Atoi req.id = some id)
    (hrow : S.selectSong db id = .row sid group title text link)
    (hv : req.verse = none ∨ req.verse = some []) :
    GetSongHandler S db req =
      ⟨StatusOK, .song ⟨sid, group, title, [],
        match text with
        | some t => t
        | none => [],
        link.getD []⟩⟩ := by
  have hq : queryGet req.verse = [] := by
    rcases hv with h | h <;> simp [queryGet, h]
  rw [GetSongHandler_plain S db req id sid group title text link hid hrow hq]
  cases text <;> rfl

/-- An instance of C8: a text with two separators comes back whole. -/
theorem GetSongHandler_full_text_witness :
    GetSongHandler memStorage (oneSong (some (ofString "A\n\nB\n\nC"))) ⟨ofString "1", none⟩
      = ⟨StatusOK, .song ⟨1, [71], [84], [], ofString "A\n\nB\n\nC", []⟩⟩ :=
  GetSongHandler_full_text memStorage (oneSong (some (ofString "A\n\nB\n\nC")))
    ⟨ofString "1", none⟩ 1 1 [71] [84] (some (ofString "A\n\nB\n\nC")) none
    (by decide) (by decide) (Or.inl rfl)

/-- C9: when the base INSERT of `AddSongHandler` fails, the response is 500, the
only call made is that insert (no provider call, no UPDATE), no identifier is
returned and the storage is the one the failed insert left. -/
theorem AddSongHandler_insert_failed {σ : Type} (S : Storage σ) (env : Env) (db db₁ : σ)
    (input : AddSongRequest)
    (hins : S.insertSong db input.Group input.Song = (db₁, none)) :
    (AddSongHandler S env db (some input)).resp =
        ⟨StatusInternalServerError, .message "Ошибка выполнения запроса"⟩ ∧
      (AddSongHandler S env db (some input)).calls = [.insert input.Group input.Song] ∧
      (AddSongHandler S env db (some input)).db = db₁ ∧
      ∀ id, (AddSongHandler S env db (some input)).resp.body ≠ .created id := by
  have h : AddSongHandler S env db (some input) =
      ⟨⟨StatusInternalServerError, .message "Ошибка выполнения запроса"⟩, db₁,
        [.insert input.Group input.Song]⟩ := by
    simp only [AddSongHandler, hins]
  rw [h]
  exact ⟨rfl, rfl, rfl, fun id hc => by cases hc⟩

/-- An instance of C9: a storage whose insert fails, with the mock provider at hand. -/
theorem AddSongHandler_insert_failed_witness :
    failingInsert.insertSong sampleTable [71] [84] = (sampleTable, none) ∧
      (AddSongHandler failingInsert mockEnv sampleTable (some ⟨[71], [84]⟩)).calls
        = [.insert [71] [84]] :=
  ⟨rfl, (AddSongHandler_insert_failed failingInsert mockEnv sampleTable sampleTable
    ⟨[71], [84]⟩ rfl).2.1⟩

theorem wrapInt_of_inRange (x : Int) (h0 : -(2 ^ 63) ≤ x) (h1 : x < 2 ^ 63) :
    wrapInt x = x := by
  unfold wrapInt
  omega

/-- The arguments of the listing query do not depend on what the database answers. -/
theorem ListSongsHandler_args {σ : Type} (query : σ → ListQuery → QueryResult) (db : σ)
    (req : ListRequest) : (ListSongsHandler query db req).2 = listArgs req := by
  unfold listArgs ListSongsHandler
  dsimp only [emptyListing]
  split <;> rfl

/-- The page and limit `ListSongsHandler` works with, after the defaults. -/
theorem listArgs_eq (req : ListRequest) :
    ∃ page limit : Int,
      (page = 1 ∨ (Atoi (queryGet req.page) = some page ∧ 0 < page)) ∧
      ((limit = 10 ∧ ∀ l, Atoi (queryGet req.limit) = some l → l ≤ 0) ∨
        (Atoi (queryGet req.limit) = some limit ∧ 0 < limit)) ∧
      listArgs req = ⟨queryGet req.group_name, queryGet req.song_title,
        queryGet req.release_date, limit, wrapInt (wrapInt (page - 1) * limit)⟩ := by
  unfold listArgs ListSongsHandler
  dsimp only [emptyListing]
  refine ⟨_, _, ?_, ?_, rfl⟩
  · cases hp : Atoi (queryGet req.page) with
    | none => exact Or.inl rfl
    | some p =>
      dsimp only
      by_cases h : p ≤ 0
      · rw [if_pos h]
        exact Or.inl rfl
      · rw [if_neg h]
        exact Or.inr ⟨rfl, by omega⟩
  · cases hl : Atoi (queryGet req.limit) with
    | none => exact Or.inl ⟨rfl, fun l h => by cases h⟩
    | some l =>
      dsimp only
      by_cases h : l ≤ 0
      · rw [if_pos h]
        exact Or.inl ⟨rfl, fun l₂ h₂ => by cases h₂; exact h⟩
      · rw [if_neg h]
        exact Or.inr ⟨rfl, by omega⟩

/-- The `LIMIT` passed to the query is positive, and it is 10 unless the
parameter parses to a positive number. -/
theorem ListSongsHandler_limit {σ : Type} (query : σ → ListQuery → QueryResult) (db : σ)
    (req : ListRequest) :
    0 < (ListSongsHandler query db req).2.limit ∧
      ((∀ l, Atoi (queryGet req.limit) = some l → l ≤ 0) →
        (ListSongsHandler query db req).2.limit = 10) := by
  rw [ListSongsHandler_args]
  obtain ⟨page, limit, _, hl, he⟩ := listArgs_eq req
  rw [he]
  rcases hl with ⟨h10, _⟩ | ⟨hs, hpos⟩
  · exact ⟨by simp [h10], fun _ => h10⟩
  · exact ⟨hpos, fun h => absurd (h limit hs) (by omega)⟩

/-- The `OFFSET` passed to the query is `(page - 1) * limit`, hence not
negative, as long as that product fits a signed 64-bit `int`. -/
theorem ListSongsHandler_offset_in_range {σ : Type} (query : σ → ListQuery → QueryResult)
    (db : σ) (req : ListRequest) (p l : Int)
    (hp : Atoi (queryGet req.page) = some p) (hp0 : 0 < p)
    (hl : Atoi (queryGet req.limit) = some l) (hl0 : 0 < l)
    (hfit : (p - 1) * l < 2 ^ 63) :
    (ListSongsHandler query db req).2.offset = (p - 1) * l ∧
      0 ≤ (ListSongsHandler query db req).2.offset := by
  have hnn : 0 ≤ (p - 1) * l := Int.mul_nonneg (by omega) (by omega)
  have hlt : p - 1 < 2 ^ 63 := by
    have : (p - 1) * 1 ≤ (p - 1) * l := Int.mul_le_mul_of_nonneg_left (by omega) (by omega)
    omega
  have hoff : (ListSongsHandler query db req).2.offset = (p - 1) * l := by
    rw [ListSongsHandler_args]
    unfold listArgs ListSongsHandler
    have hp' : ¬ p ≤ 0 := by omega
    have hl' : ¬ l ≤ 0 := by omega
    simp only [emptyListing, hp, hl, hp', hl', if_false]
    rw [wrapInt_of_inRange (p - 1) (by omega) hlt, wrapInt_of_inRange _ (by omega) hfit]
  exact ⟨hoff, hoff ▸ hnn⟩

/-! ## Pagination of the listing -/

/-- C11, at the input `page=4611686018427387905`, `limit=2`: both values parse
and are positive, the `LIMIT` passed is 2, and the `OFFSET` passed is
`(page - 1) * limit = 2^63` wrapped to `-9223372036854775808`, a negative
number. -/
theorem ListSongsHandler_offset_wraps {σ : Type} (query : σ → ListQuery → QueryResult)
    (db : σ) :
    Atoi (ofString "4611686018427387905") = some 4611686018427387905 ∧
      Atoi (ofString "2") = some 2 ∧
      (ListSongsHandler query db
          ⟨none, none, none, some (ofString "4611686018427387905"), some (ofString "2")⟩).2
        = ⟨[], [], [], 2, -9223372036854775808⟩ ∧
      (ListSongsHandler query db
          ⟨none, none, none, some (ofString "4611686018427387905"),
            some (ofString "2")⟩).2.offset < 0 := by
  rw [ListSongsHandler_args]
  decide

end SongLib
